import Mathlib

/-!
Verification of the optional-bridging layer of the `cxx` fork:
`src/cxx_optional.rs` (the `CxxOptional<T>` view over a foreign
`std::optional<T>` together with its per-element-type binding macro) and
`src/rust_option.rs` (the `RustOption<T>` mirror over a native `Option<T>`).

The Rust-side functions are embedded shallowly.  The foreign (C++) entry
points `__has_value` and `__get_unchecked` are not part of the Rust sources,
so their behaviour is modelled from the spec: the foreign optional is a
container holding zero or one values of the element type, `has_value`
reports presence, and the unchecked accessor returns the contained value
(its behaviour on an empty container is unspecified; the model returns an
arbitrary default there, mirroring that any use of that case is undefined).
-/

namespace CxxBridge

/-- Modelled from the spec: the in-memory state of a foreign
`std::optional<T>` container (the pointee behind a `&CxxOptional<T>`
reference).  The C++ side is not among the Rust sources; per the spec it is
"a tagged container that may or may not hold a value", so its observable
state is exactly an optional value of the element type. -/
structure CxxOptional (T : Type) where
  contents : Option T
deriving Repr, DecidableEq

/-- Modelled from the spec: the foreign `has_value` entry point
(`cxxbridge03$std$optional$<ty>$has_value`), which "behaves per the foreign
optional's standard contract": true iff the container holds a value. -/
def hasValueForeign {T : Type} (v : CxxOptional T) : Bool :=
  v.contents.isSome

/-- Modelled from the spec: the foreign `get_unchecked` entry point
(`cxxbridge03$std$optional$<ty>$get_unchecked`): a pointer to the contained
value.  On an empty container the operation is undefined behaviour; the
model returns the `Inhabited` default there, standing in for an arbitrary
unspecified result. -/
def getUncheckedForeign {T : Type} [Inhabited T] (v : CxxOptional T) : T :=
  v.contents.getD default

namespace CxxOptional

variable {T : Type} [Inhabited T]

/-- Embeds `CxxOptional::is_some` (src/cxx_optional.rs:29-31):
`T::__has_value(self)`. -/
def is_some (v : CxxOptional T) : Bool :=
  hasValueForeign v

/-- Embeds `CxxOptional::is_none` (src/cxx_optional.rs:34-36):
`!self.is_some()`. -/
def is_none (v : CxxOptional T) : Bool :=
  !v.is_some

/-- Embeds `CxxOptional::get` (src/cxx_optional.rs:39-45):
`if self.is_some() { Some(unsafe { T::__get_unchecked(self) }) } else { None }`. -/
def get (v : CxxOptional T) : Option T :=
  if v.is_some then some (getUncheckedForeign v) else none

/-- Embeds `CxxOptional::get_unchecked` (src/cxx_optional.rs:57-59):
`T::__get_unchecked(self)`. -/
def get_unchecked (v : CxxOptional T) : T :=
  getUncheckedForeign v

end CxxOptional

/-- Foreign calls a `CxxOptional` method can make, used to trace which
entry points `get` exercises. -/
inductive ForeignCall where
  | hasValue
  | getUnchecked
deriving Repr, DecidableEq

/-- Instrumented embedding of `CxxOptional::get` (src/cxx_optional.rs:39-45):
the same control flow as `CxxOptional.get`, additionally recording, in
order, each foreign entry point invoked.  The branch condition
`self.is_some()` calls `__has_value`; only the `true` branch calls
`__get_unchecked`. -/
def CxxOptional.getTraced {T : Type} [Inhabited T] (v : CxxOptional T) :
    Option T × List ForeignCall :=
  if v.is_some then
    (some (getUncheckedForeign v), [ForeignCall.hasValue, ForeignCall.getUnchecked])
  else
    (none, [ForeignCall.hasValue])

/-- Embeds `RustOption<T>` (src/rust_option.rs:1-4): a `repr(C)` struct
whose single field `repr` is a native `Option<T>`. -/
structure RustOption (T : Type) where
  repr : Option T
deriving Repr, DecidableEq

namespace RustOption

variable {T : Type}

/-- Embeds `RustOption::new` (src/rust_option.rs:7-9). -/
def new : RustOption T :=
  { repr := Option.none }

/-- Embeds `RustOption::from` (src/rust_option.rs:11-13). -/
def «from» (v : Option T) : RustOption T :=
  { repr := v }

/-- Embeds `RustOption::from_ref` (src/rust_option.rs:15-17): the pointer
reinterpretation `&*(v as *const Option<T> as *const RustOption<T>)`.  At
the value level the mirror observed through the returned reference wraps
exactly the pointed-to optional. -/
def from_ref (v : Option T) : RustOption T :=
  { repr := v }

/-- Embeds `RustOption::into_option` (src/rust_option.rs:19-21). -/
def into_option (v : RustOption T) : Option T :=
  v.repr

/-- Embeds `RustOption::as_option` (src/rust_option.rs:23-25). -/
def as_option (v : RustOption T) : Option T :=
  v.repr

/-- Embeds `RustOption::is_some` (src/rust_option.rs:31-33). -/
def is_some (v : RustOption T) : Bool :=
  v.repr.isSome

/-- Embeds `RustOption::is_none` (src/rust_option.rs:35-37). -/
def is_none (v : RustOption T) : Bool :=
  v.repr.isNone

end RustOption

/-- Supported element types: the closed set instantiated by
`impl_optional_element_for_primitive!` (src/cxx_optional.rs:174-185). -/
inductive ElementTy where
  | u8 | u16 | u32 | u64 | usize
  | i8 | i16 | i32 | i64 | isize
  | f32 | f64
deriving Repr, DecidableEq

/-- Canonical (stringified) name of each supported element type, as
`stringify!($ty)` produces it inside the binding macro. -/
def ElementTy.name : ElementTy → String
  | .u8 => "u8"
  | .u16 => "u16"
  | .u32 => "u32"
  | .u64 => "u64"
  | .usize => "usize"
  | .i8 => "i8"
  | .i16 => "i16"
  | .i32 => "i32"
  | .i64 => "i64"
  | .isize => "isize"
  | .f32 => "f32"
  | .f64 => "f64"

/-- Embeds `OptionalElement::__NAME` (src/cxx_optional.rs:102):
`&stringify!($ty)`, the per-type display name constant. -/
def elementNAME (t : ElementTy) : String :=
  t.name

/-- Embeds the `link_name` of `__has_value` (src/cxx_optional.rs:106):
`concat!("cxxbridge03$std$optional$", stringify!($ty), "$has_value")`. -/
def hasValueLink (t : ElementTy) : String :=
  "cxxbridge03$std$optional$" ++ t.name ++ "$has_value"

/-- Embeds the `link_name` of `__get_unchecked` (src/cxx_optional.rs:115). -/
def getUncheckedLink (t : ElementTy) : String :=
  "cxxbridge03$std$optional$" ++ t.name ++ "$get_unchecked"

/-- Embeds the `link_name` of `__unique_ptr_null` (src/cxx_optional.rs:124). -/
def uniquePtrNullLink (t : ElementTy) : String :=
  "cxxbridge03$unique_ptr$std$optional$" ++ t.name ++ "$null"

/-- Embeds the `link_name` of `__unique_ptr_raw` (src/cxx_optional.rs:135). -/
def uniquePtrRawLink (t : ElementTy) : String :=
  "cxxbridge03$unique_ptr$std$optional$" ++ t.name ++ "$raw"

/-- Embeds the `link_name` of `__unique_ptr_get` (src/cxx_optional.rs:146). -/
def uniquePtrGetLink (t : ElementTy) : String :=
  "cxxbridge03$unique_ptr$std$optional$" ++ t.name ++ "$get"

/-- Embeds the `link_name` of `__unique_ptr_release` (src/cxx_optional.rs:155). -/
def uniquePtrReleaseLink (t : ElementTy) : String :=
  "cxxbridge03$unique_ptr$std$optional$" ++ t.name ++ "$release"

/-- Embeds the `link_name` of `__unique_ptr_drop` (src/cxx_optional.rs:164). -/
def uniquePtrDropLink (t : ElementTy) : String :=
  "cxxbridge03$unique_ptr$std$optional$" ++ t.name ++ "$drop"

/-- Follows the spec's words (§4.2, §6): a symbol name produced by the
deterministic grammar is a fixed namespace token, then the element type's
canonical name, then the operation suffix, all separated by the character
sequence given concretely in the claim as a dollar sign. -/
def grammarSymbol (ns ty op : String) : String :=
  ns ++ "$" ++ ty ++ "$" ++ op

/-- Embeds the `Display` instance of `TypeName<T>`
(src/cxx_optional.rs:74-81): `write!(formatter, "CxxOptional<{}>", T::__NAME)`
renders the fixed text around the per-type name constant. -/
def typeNameDisplay (t : ElementTy) : String :=
  "CxxOptional<" ++ elementNAME t ++ ">"

/-- Claim C1: for every element type and every foreign optional view on
which the foreign has-value predicate returns true (the container holds a
value `x`), `is_some` returns true, `get` returns `some` of the reference
produced by the unchecked accessor — which equals the contained value — and
`get_unchecked` returns the same reference as `get`'s payload. -/
theorem c1_nonempty_view_accessors {T : Type} [Inhabited T]
    (v : CxxOptional T) (x : T) (h : v.contents = some x) :
    v.is_some = true ∧
    v.get = some (getUncheckedForeign v) ∧
    getUncheckedForeign v = x ∧
    v.get_unchecked = x ∧
    v.get = some v.get_unchecked := by
  have hs : v.is_some = true := by
    simp [CxxOptional.is_some, hasValueForeign, h]
  have hg : getUncheckedForeign v = x := by
    simp [getUncheckedForeign, h]
  refine ⟨hs, ?_, hg, ?_, ?_⟩
  · simp [CxxOptional.get, hs]
  · simp [CxxOptional.get_unchecked, hg]
  · simp [CxxOptional.get, CxxOptional.get_unchecked, hs]

/-- Witness for C1 at the concrete view holding the value `42 : Nat`. -/
theorem c1_nonempty_view_accessors_witness :
    (CxxOptional.mk (some 42) : CxxOptional Nat).is_some = true ∧
    (CxxOptional.mk (some 42) : CxxOptional Nat).get =
      some (getUncheckedForeign (CxxOptional.mk (some 42))) ∧
    getUncheckedForeign (CxxOptional.mk (some 42) : CxxOptional Nat) = 42 ∧
    (CxxOptional.mk (some 42) : CxxOptional Nat).get_unchecked = 42 ∧
    (CxxOptional.mk (some 42) : CxxOptional Nat).get =
      some (CxxOptional.mk (some 42) : CxxOptional Nat).get_unchecked :=
  c1_nonempty_view_accessors (CxxOptional.mk (some 42)) 42 rfl

/-- Claim C2: for every element type and every foreign optional view on
which the foreign has-value predicate returns false (the container is
empty), `is_some` returns false, `is_none` returns true, and `get` returns
`none`. -/
theorem c2_empty_view_accessors {T : Type} [Inhabited T]
    (v : CxxOptional T) (h : v.contents = none) :
    v.is_some = false ∧ v.is_none = true ∧ v.get = none := by
  have hs : v.is_some = false := by
    simp [CxxOptional.is_some, hasValueForeign, h]
  refine ⟨hs, ?_, ?_⟩
  · simp [CxxOptional.is_none, hs]
  · simp [CxxOptional.get, hs]

/-- Witness for C2 at the concrete empty view of element type `Nat`. -/
theorem c2_empty_view_accessors_witness :
    (CxxOptional.mk none : CxxOptional Nat).is_some = false ∧
    (CxxOptional.mk none : CxxOptional Nat).is_none = true ∧
    (CxxOptional.mk none : CxxOptional Nat).get = none :=
  c2_empty_view_accessors (CxxOptional.mk none) rfl

/-- Claim C3: the traced embedding of `get` computes the same result as
`get`, always consults the foreign has-value predicate, and invokes the
unchecked accessor only when that predicate returned true; on an empty
container the unsafe entry point is never reached. -/
theorem c3_get_guards_unchecked {T : Type} [Inhabited T] (v : CxxOptional T) :
    (v.getTraced).1 = v.get ∧
    ForeignCall.hasValue ∈ (v.getTraced).2 ∧
    (ForeignCall.getUnchecked ∈ (v.getTraced).2 → v.is_some = true) ∧
    (v.is_some = false → ForeignCall.getUnchecked ∉ (v.getTraced).2) := by
  by_cases hs : v.is_some
  · refine ⟨?_, ?_, ?_, ?_⟩
    · simp [CxxOptional.getTraced, CxxOptional.get, hs]
    · simp [CxxOptional.getTraced, hs]
    · intro _; exact hs
    · intro hcontra; simp [hs] at hcontra ⊢
  · have hs' : v.is_some = false := by
      simpa using hs
    refine ⟨?_, ?_, ?_, ?_⟩
    · simp [CxxOptional.getTraced, CxxOptional.get, hs']
    · simp [CxxOptional.getTraced, hs']
    · intro hmem
      exfalso
      simp [CxxOptional.getTraced, hs'] at hmem
    · intro _
      simp [CxxOptional.getTraced, hs']

/-- Witness for C3 at the concrete view holding the value `7 : Nat`. -/
theorem c3_get_guards_unchecked_witness :
    ((CxxOptional.mk (some 7) : CxxOptional Nat).getTraced).1 =
      (CxxOptional.mk (some 7) : CxxOptional Nat).get ∧
    ForeignCall.hasValue ∈ ((CxxOptional.mk (some 7) : CxxOptional Nat).getTraced).2 ∧
    (ForeignCall.getUnchecked ∈ ((CxxOptional.mk (some 7) : CxxOptional Nat).getTraced).2 →
      (CxxOptional.mk (some 7) : CxxOptional Nat).is_some = true) ∧
    ((CxxOptional.mk (some 7) : CxxOptional Nat).is_some = false →
      ForeignCall.getUnchecked ∉ ((CxxOptional.mk (some 7) : CxxOptional Nat).getTraced).2) :=
  c3_get_guards_unchecked (CxxOptional.mk (some 7))

/-- Claim C4: `is_none` is the boolean negation of `is_some`, and both are
determined by the same single consultation of the foreign has-value
predicate. -/
theorem c4_is_none_negates_is_some {T : Type} [Inhabited T] (v : CxxOptional T) :
    v.is_none = !v.is_some ∧
    v.is_some = hasValueForeign v ∧
    v.is_none = !hasValueForeign v := by
  exact ⟨rfl, rfl, rfl⟩

/-- Witness for C4 at the concrete empty view of element type `Nat`. -/
theorem c4_is_none_negates_is_some_witness :
    (CxxOptional.mk none : CxxOptional Nat).is_none =
      !(CxxOptional.mk none : CxxOptional Nat).is_some ∧
    (CxxOptional.mk none : CxxOptional Nat).is_some =
      hasValueForeign (CxxOptional.mk none : CxxOptional Nat) ∧
    (CxxOptional.mk none : CxxOptional Nat).is_none =
      !hasValueForeign (CxxOptional.mk none : CxxOptional Nat) :=
  c4_is_none_negates_is_some (CxxOptional.mk none)

/-- Claim C5: wrapping a native optional in the host mirror and unwrapping
it is the identity: `RustOption::from(o).into_option() == o`. -/
theorem c5_mirror_round_trip {T : Type} (o : Option T) :
    (RustOption.«from» o).into_option = o :=
  rfl

/-- Claim C6: the mirror obtained by `from_ref` reports the same presence
as the native optional, and the mirror's `is_some` and `is_none` queries
always return exactly the presence status of the wrapped optional. -/
theorem c6_mirror_presence {T : Type} (o : Option T) :
    (RustOption.from_ref o).is_some = o.isSome ∧
    (RustOption.«from» o).is_some = o.isSome ∧
    (RustOption.«from» o).is_none = o.isNone ∧
    (RustOption.from_ref o).is_none = o.isNone :=
  ⟨rfl, rfl, rfl, rfl⟩

/-- Witness for C5 at the concrete native optional `some 3 : Option Nat`. -/
theorem c5_mirror_round_trip_witness :
    (RustOption.«from» (some 3 : Option Nat)).into_option = some 3 :=
  c5_mirror_round_trip (some 3)

/-- Witness for C6 at the concrete native optional `some 3 : Option Nat`. -/
theorem c6_mirror_presence_witness :
    (RustOption.from_ref (some 3 : Option Nat)).is_some = (some 3 : Option Nat).isSome ∧
    (RustOption.«from» (some 3 : Option Nat)).is_some = (some 3 : Option Nat).isSome ∧
    (RustOption.«from» (some 3 : Option Nat)).is_none = (some 3 : Option Nat).isNone ∧
    (RustOption.from_ref (some 3 : Option Nat)).is_none = (some 3 : Option Nat).isNone :=
  c6_mirror_presence (some 3)

/-- Claim C8 as stated is false: the symbols are not all produced by one
grammar with a single fixed namespace token built from only "cxxbridge03"
and "std$optional".  Concretely, the `null` owning-handle symbol for `u8`
is `cxxbridge03$unique_ptr$std$optional$u8$null`, not the
`cxxbridge03$std$optional$u8$null` that grammar would give; moreover no
single namespace string makes both the `has_value` and the `null` symbols
fit the prefix-name-operation grammar. -/
theorem c8_single_grammar_counterexample :
    uniquePtrNullLink ElementTy.u8 = "cxxbridge03$unique_ptr$std$optional$u8$null" ∧
    uniquePtrNullLink ElementTy.u8 ≠
      grammarSymbol ("cxxbridge03" ++ "$" ++ "std$optional") ElementTy.u8.name "null" ∧
    ¬ ∃ ns : String, ∀ t : ElementTy,
        hasValueLink t = grammarSymbol ns t.name "has_value" ∧
        uniquePtrNullLink t = grammarSymbol ns t.name "null" := by
  refine ⟨by decide, by decide, ?_⟩
  rintro ⟨ns, h⟩
  have h1 := (h ElementTy.u8).1
  have h2 := (h ElementTy.u8).2
  simp only [hasValueLink, uniquePtrNullLink, grammarSymbol, ElementTy.name] at h1 h2
  have l1 := congrArg String.length h1
  have l2 := congrArg String.length h2
  simp only [String.length_append] at l1 l2
  have e1 : ("cxxbridge03$std$optional$" : String).length = 25 := by decide
  have e2 : ("cxxbridge03$unique_ptr$std$optional$" : String).length = 36 := by decide
  have e3 : ("u8" : String).length = 2 := by decide
  have e4 : ("$has_value" : String).length = 10 := by decide
  have e5 : ("$null" : String).length = 5 := by decide
  have e6 : ("$" : String).length = 1 := by decide
  have e7 : ("has_value" : String).length = 9 := by decide
  have e8 : ("null" : String).length = 4 := by decide
  rw [e1, e3, e4, e6, e7] at l1
  rw [e2, e3, e5, e6, e8] at l2
  omega

/-- Claim C8, amended: every foreign entry point's symbol follows the
deterministic namespace-name-operation grammar, with the namespace token
`cxxbridge03$std$optional` for the two view operations and the namespace
token `cxxbridge03$unique_ptr$std$optional` (carrying the extra
`unique_ptr` segment) for the five owning-handle operations. -/
theorem c8_symbols_follow_grammar (t : ElementTy) :
    hasValueLink t = grammarSymbol "cxxbridge03$std$optional" t.name "has_value" ∧
    getUncheckedLink t = grammarSymbol "cxxbridge03$std$optional" t.name "get_unchecked" ∧
    uniquePtrNullLink t = grammarSymbol "cxxbridge03$unique_ptr$std$optional" t.name "null" ∧
    uniquePtrRawLink t = grammarSymbol "cxxbridge03$unique_ptr$std$optional" t.name "raw" ∧
    uniquePtrGetLink t = grammarSymbol "cxxbridge03$unique_ptr$std$optional" t.name "get" ∧
    uniquePtrReleaseLink t = grammarSymbol "cxxbridge03$unique_ptr$std$optional" t.name "release" ∧
    uniquePtrDropLink t = grammarSymbol "cxxbridge03$unique_ptr$std$optional" t.name "drop" := by
  cases t <;> exact ⟨by decide, by decide, by decide, by decide, by decide, by decide, by decide⟩

/-- Witness for the amended C8 at the concrete element type `u8`. -/
theorem c8_symbols_follow_grammar_witness :
    hasValueLink ElementTy.u8 =
      grammarSymbol "cxxbridge03$std$optional" ElementTy.u8.name "has_value" ∧
    getUncheckedLink ElementTy.u8 =
      grammarSymbol "cxxbridge03$std$optional" ElementTy.u8.name "get_unchecked" ∧
    uniquePtrNullLink ElementTy.u8 =
      grammarSymbol "cxxbridge03$unique_ptr$std$optional" ElementTy.u8.name "null" ∧
    uniquePtrRawLink ElementTy.u8 =
      grammarSymbol "cxxbridge03$unique_ptr$std$optional" ElementTy.u8.name "raw" ∧
    uniquePtrGetLink ElementTy.u8 =
      grammarSymbol "cxxbridge03$unique_ptr$std$optional" ElementTy.u8.name "get" ∧
    uniquePtrReleaseLink ElementTy.u8 =
      grammarSymbol "cxxbridge03$unique_ptr$std$optional" ElementTy.u8.name "release" ∧
    uniquePtrDropLink ElementTy.u8 =
      grammarSymbol "cxxbridge03$unique_ptr$std$optional" ElementTy.u8.name "drop" :=
  c8_symbols_follow_grammar ElementTy.u8

/-- Claim C10: for every supported element type, rendering `TypeName<T>`
displays exactly "CxxOptional<", then the type's canonical name, then ">";
in particular the 32-bit unsigned integer element type displays as
`CxxOptional<u32>`. -/
theorem c10_type_name_display :
    (∀ t : ElementTy, typeNameDisplay t = "CxxOptional<" ++ t.name ++ ">") ∧
    typeNameDisplay ElementTy.u32 = "CxxOptional<u32>" ∧
    typeNameDisplay ElementTy.u8 = "CxxOptional<u8>" ∧
    typeNameDisplay ElementTy.f64 = "CxxOptional<f64>" := by
  refine ⟨?_, by decide, by decide, by decide⟩
  intro t
  rfl

end CxxBridge
